import Mathlib

/-
Verification of the LuxRays heterogeneous ray-intersection engine excerpt:
a shallow embedding of the hardware (Optix/CUDA) intersection-kernel build
pipeline, the CUDA intersection device lifecycle and dispatch path, and the
Context orchestration layer, translated from

  src/luxrays/accelerators/optixaccelhw.cpp
  src/luxrays/devices/cudaintersectiondevice.cpp
  src/luxrays/core/context.cpp

Device-buffer allocation and release (AllocBufferRO / AllocBufferRW /
FreeBuffer) are embedded as an explicit allocation/free log, backend calls
that can fail (optixAccelBuild, optixAccelCompact, CompilePTX,
optixModuleCreateFromPTX, program-group and pipeline creation) are driven
by an explicit environment of success flags, and C++ exception semantics
are embedded by returning the error together with the state at the throw
point (a throwing constructor does not run its destructor, so the
allocation log survives the failure unchanged).
-/

set_option autoImplicit false
set_option linter.unusedVariables false

namespace LuxRays

/-- Mesh types relevant to OptixKernel::OptixKernel: the switch accepts
TYPE_TRIANGLE and TYPE_EXT_TRIANGLE and throws on every other tag. -/
inductive MeshType where
  | typeTriangle
  | typeExtTriangle
  | typeOther
  deriving DecidableEq, Repr

/-- One mesh of the DataSet, as consumed by the builder: its type tag plus
the vertex/triangle counts read by BuildTraversable. -/
structure Mesh where
  mtype : MeshType
  vertexCount : Nat
  triangleCount : Nat
  deriving DecidableEq, Repr

/-- The AcceleratorType enumeration values used by
CUDAIntersectionDevice::SetDataSet. -/
inductive AccelType where
  | accelAuto
  | accelBVH
  | accelMBVH
  | accelEmbree
  | accelOptix
  deriving DecidableEq, Repr

/-- The DataSet fields read by the code under verification: the configured
accelerator type, the two capability-requirement flags and the mesh list.
The accessors (GetAcceleratorType, RequiresInstanceSupport,
RequiresMotionBlurSupport, the mesh list of OptixAccel) are declared in
headers outside the excerpt; their values are free inputs here. -/
structure DataSet where
  acceleratorType : AccelType
  requiresInstanceSupport : Bool
  requiresMotionBlurSupport : Bool
  meshes : List Mesh
  deriving DecidableEq, Repr

/-- Accelerator-strategy selection of CUDAIntersectionDevice::SetDataSet
(cudaintersectiondevice.cpp lines 64-78): an explicit (non-AUTO)
accelerator type is used as configured; under ACCEL_AUTO, instance or
motion-blur requirements force ACCEL_MBVH, otherwise the presence of an
Optix context selects ACCEL_OPTIX and its absence ACCEL_BVH. -/
def selectAccelerator (hasOptixContext : Bool) (ds : DataSet) : AccelType :=
  if ds.acceleratorType ≠ AccelType.accelAuto then
    ds.acceleratorType
  else if ds.requiresInstanceSupport || ds.requiresMotionBlurSupport then
    AccelType.accelMBVH
  else if hasOptixContext then
    AccelType.accelOptix
  else
    AccelType.accelBVH

/-- CUDAIntersectionDevice::SetDataSet: stores the new DataSet reference
(base-class member write) and, when it is non-null, recomputes the selected
accelerator; a null DataSet leaves the previous selection in place. -/
def CUDAIntersectionDevice.setDataSet (hasOptixContext : Bool)
    (newDataSet : Option DataSet) (currentAccel : Option AccelType) :
    Option DataSet × Option AccelType :=
  match newDataSet with
  | none => (none, currentAccel)
  | some ds => (some ds, some (selectAccelerator hasOptixContext ds))

/-- Native resources acquired during OptixKernel construction.  Buffer
resources carry the loop index (for per-mesh buffers) or the index of the
BuildTraversable call that allocated them, so every acquisition in one run
is distinct. -/
inductive Res where
  | vertsBuff (i : Nat)
  | trisBuff (i : Nat)
  | tmpBufferGas (k : Nat)
  | tempOutput (k : Nat)
  | compactedOutput (k : Nat)
  | instancesBuff
  | optixModule
  | raygenProgGroup
  | missProgGroup
  | hitProgGroup
  | pipeline
  | accelParamsBuff
  | rayGenSbtBuff
  | hitSbtBuff
  | missSbtBuff
  deriving DecidableEq, Repr

/-- Modelled from the spec: AllocBufferRO/AllocBufferRW/FreeBuffer are
declared on the device layer outside the excerpt; per the resource model
they allocate and release device memory, so they are embedded as an
append-only allocation log and free log.  A resource is live when it was
allocated and not freed. -/
structure KState where
  allocLog : List Res
  freeLog : List Res
  deriving DecidableEq, Repr

/-- AllocBufferRO / AllocBufferRW: record the acquisition. -/
def KState.alloc (s : KState) (r : Res) : KState :=
  { s with allocLog := s.allocLog ++ [r] }

/-- FreeBuffer (and the optix*Destroy calls): record the release. -/
def KState.free (s : KState) (r : Res) : KState :=
  { s with freeLog := s.freeLog ++ [r] }

/-- Resources currently held: allocated and not freed, in allocation
order. -/
def KState.live (s : KState) : List Res :=
  s.allocLog.filter (fun r => r ∉ s.freeLog)

/-- The typed failure taxonomy for kernel construction, one constructor per
throw site of OptixKernel::OptixKernel and OptixKernel::BuildTraversable. -/
inductive KError where
  | unsupportedMeshType
  | acceleratorBuildError
  | kernelCompilationError
  | moduleCreateError
  | programGroupCreateError
  | pipelineCreateError
  deriving DecidableEq, Repr

/-- Outcome of a construction step: C++ exception semantics keep the
allocation state of the throw point (a throwing constructor never runs its
own destructor), so both outcomes carry the state. -/
inductive BuildResult (α : Type) where
  | ok (a : α) (s : KState)
  | err (e : KError) (s : KState)
  deriving DecidableEq, Repr

/-- Sizes reported by optixAccelComputeMemoryUsage and by the
OPTIX_PROPERTY_TYPE_COMPACTED_SIZE emitted property for one
BuildTraversable call. -/
structure BuildSizes where
  tempSizeInBytes : Nat
  outputSizeInBytes : Nat
  compactedSize : Nat
  deriving DecidableEq, Repr

/-- Backend environment for one construction run: per-build sizes and
handles chosen by the Optix runtime, and success flags for every fallible
native call checked by CHECK_OPTIX_ERROR or the compiler cache. -/
structure BuildEnv where
  sizes : Nat → BuildSizes
  accelBuildOk : Nat → Bool
  accelCompactOk : Nat → Bool
  builtHandle : Nat → Nat
  compactedHandle : Nat → Nat
  compileOk : Bool
  moduleCreateOk : Bool
  raygenGroupOk : Bool
  missGroupOk : Bool
  hitGroupOk : Bool
  pipelineOk : Bool

/-- OptixKernel::BuildTraversable(buildInput, handle, outputBuffer)
(optixaccelhw.cpp lines 440-510), for the k-th build of the run: allocate
the temporary build buffer and the conservative output buffer, run
optixAccelBuild, free the scratch buffer, read the compacted size, and iff
it is strictly smaller than the conservative output size allocate a tight
buffer, compact into it and free the conservative buffer; otherwise the
conservative buffer itself becomes the final output. -/
def buildTraversableInput (env : BuildEnv) (k : Nat) (s : KState) :
    BuildResult (Nat × Res) :=
  let sz := env.sizes k
  let s := s.alloc (Res.tmpBufferGas k)
  let s := s.alloc (Res.tempOutput k)
  if env.accelBuildOk k then
    let s := s.free (Res.tmpBufferGas k)
    if sz.compactedSize < sz.outputSizeInBytes then
      let s := s.alloc (Res.compactedOutput k)
      if env.accelCompactOk k then
        BuildResult.ok (env.compactedHandle k, Res.compactedOutput k)
          (s.free (Res.tempOutput k))
      else
        BuildResult.err KError.acceleratorBuildError s
    else
      BuildResult.ok (env.builtHandle k, Res.tempOutput k) s
  else
    BuildResult.err KError.acceleratorBuildError s

/-- OptixKernel::BuildTraversable(mesh, handle, outputBuffer)
(optixaccelhw.cpp lines 398-438), for mesh index i (which is also the
build index of the run): upload the vertex and triangle buffers, build the
bottom-level traversable from them, then free both upload buffers. -/
def buildTraversableMesh (env : BuildEnv) (i : Nat) (s : KState) :
    BuildResult (Nat × Res) :=
  let s := s.alloc (Res.vertsBuff i)
  let s := s.alloc (Res.trisBuff i)
  match buildTraversableInput env i s with
  | BuildResult.ok r s =>
      BuildResult.ok r ((s.free (Res.vertsBuff i)).free (Res.trisBuff i))
  | BuildResult.err e s => BuildResult.err e s

/-- The 12-entry 3x4 instance transform after memset(0) (optixaccelhw.cpp
line 107). -/
def clearedTransform : List Nat := List.replicate 12 0

/-- The transform written by the constructor: entries 0, 5 and 10 set to
one over the cleared matrix (lines 110-112), i.e. the identity. -/
def identityTransform : List Nat :=
  ((clearedTransform.set 0 1).set 5 1).set 10 1

/-- One OptixInstance as filled in by the constructor (lines 105-117). -/
structure OptixInstanceM where
  transform : List Nat
  instanceId : Nat
  visibilityMask : Nat
  traversableHandle : Nat
  disableTransform : Bool
  deriving DecidableEq, Repr

/-- The instance built for mesh i from its bottom-level handle: identity
transform, instanceId = mesh index, visibility mask 1, transform disabled. -/
def mkOptixInstance (i : Nat) (handle : Nat) : OptixInstanceM :=
  { transform := identityTransform
    instanceId := i
    visibilityMask := 1
    traversableHandle := handle
    disableTransform := true }

/-- The per-mesh bottom-level loop of OptixKernel::OptixKernel
(optixaccelhw.cpp lines 86-136), started at mesh index i: triangle meshes
are built into one traversable each (whose final output buffer is pushed
onto optixOutputBuffers) and one OptixInstance referencing the returned
handle is appended; any other mesh type throws.  Returns the bottom-level
handles, the pushed output buffers and the instance vector, in mesh
order. -/
def buildBottomLevels (env : BuildEnv) (meshes : List Mesh) (i : Nat)
    (s : KState) :
    BuildResult (List Nat × List Res × List OptixInstanceM) :=
  match meshes with
  | [] => BuildResult.ok ([], [], []) s
  | m :: rest =>
    match m.mtype with
    | MeshType.typeOther => BuildResult.err KError.unsupportedMeshType s
    | _ =>
      match buildTraversableMesh env i s with
      | BuildResult.err e s => BuildResult.err e s
      | BuildResult.ok (h, out) s =>
        match buildBottomLevels env rest (i + 1) s with
        | BuildResult.err e s => BuildResult.err e s
        | BuildResult.ok (hs, outs, insts) s =>
          BuildResult.ok (h :: hs, out :: outs, mkOptixInstance i h :: insts) s

/-- Which program group a shader-binding-table record header was packed
from (optixSbtRecordPackHeader argument). -/
inductive ProgGroupRef where
  | raygen
  | miss
  | hit
  deriving DecidableEq, Repr

/-- One hit-group SBT record: its packed header origin and its
HitGroupSbtData payload (the mesh index). -/
structure HitGroupSbtRecordM where
  packedFrom : ProgGroupRef
  meshIndex : Nat
  deriving DecidableEq, Repr

/-- The OptixShaderBindingTable as assembled at lines 333-359: one raygen
record, one miss record (whose header the source packs from the hit
program group), and one hit record per mesh carrying the mesh index. -/
structure OptixSbtM where
  raygenRecords : List ProgGroupRef
  missRecords : List ProgGroupRef
  missRecordCount : Nat
  hitRecords : List HitGroupSbtRecordM
  hitgroupRecordCount : Nat
  deriving DecidableEq, Repr

/-- The launch-parameter block (struct Params at lines 33-37): top-level
traversable handle plus current ray and ray-hit device addresses. -/
structure OptixAccelParamsM where
  optixHandle : Nat
  rayBuff : Nat
  rayHitBuff : Nat
  deriving DecidableEq, Repr

/-- The realized OptixKernel: bottom-level handles and output buffers, the
instance vector, the top-level handle, the parameter block and the shader
binding table. -/
structure KernelModel where
  bottomHandles : List Nat
  optixOutputBuffers : List Res
  instances : List OptixInstanceM
  topLevelHandle : Nat
  optixAccelParams : OptixAccelParamsM
  optixSbt : OptixSbtM
  deriving DecidableEq, Repr

/-- The shader binding table assembled for an n-mesh DataSet (lines
333-359 of the source): the raygen buffer holds one record packed from the
raygen group, the miss buffer one record (packed, in the source, from the
hit group), missRecordCount is 1, and the hit buffer holds one record per
mesh whose payload is its mesh index, with hitgroupRecordCount = n. -/
def sbtFor (n : Nat) : OptixSbtM :=
  { raygenRecords := [ProgGroupRef.raygen]
    missRecords := [ProgGroupRef.hit]
    missRecordCount := 1
    hitRecords :=
      (List.range n).map (fun i => { packedFrom := ProgGroupRef.hit, meshIndex := i })
    hitgroupRecordCount := n }

/-- OptixKernel::OptixKernel (optixaccelhw.cpp lines 55-360): build every
bottom-level traversable (pushing its output buffer), allocate the
instance buffer, build the top-level traversable over the instances and
push its output buffer, compile the kernel source through the PTX cache,
create the module, the raygen/miss/hit program groups and the pipeline,
then allocate the parameter block and the three SBT buffers.  Every
fallible native call that fails throws, leaving the allocation state of
the throw point. -/
def constructKernel (env : BuildEnv) (meshes : List Mesh) (s : KState) :
    BuildResult KernelModel :=
  match buildBottomLevels env meshes 0 s with
  | BuildResult.err e s => BuildResult.err e s
  | BuildResult.ok (handles, outs, insts) s =>
    let s := s.alloc Res.instancesBuff
    match buildTraversableInput env meshes.length s with
    | BuildResult.err e s => BuildResult.err e s
    | BuildResult.ok (topHandle, topOut) s =>
      if env.compileOk then
        if env.moduleCreateOk then
          let s := s.alloc Res.optixModule
          if env.raygenGroupOk then
            let s := s.alloc Res.raygenProgGroup
            if env.missGroupOk then
              let s := s.alloc Res.missProgGroup
              if env.hitGroupOk then
                let s := s.alloc Res.hitProgGroup
                if env.pipelineOk then
                  let s := s.alloc Res.pipeline
                  let s := s.alloc Res.accelParamsBuff
                  let s := s.alloc Res.rayGenSbtBuff
                  let s := s.alloc Res.hitSbtBuff
                  let s := s.alloc Res.missSbtBuff
                  BuildResult.ok
                    { bottomHandles := handles
                      optixOutputBuffers := outs ++ [topOut]
                      instances := insts
                      topLevelHandle := topHandle
                      optixAccelParams :=
                        { optixHandle := topHandle, rayBuff := 0, rayHitBuff := 0 }
                      optixSbt := sbtFor meshes.length } s
                else BuildResult.err KError.pipelineCreateError s
              else BuildResult.err KError.programGroupCreateError s
            else BuildResult.err KError.programGroupCreateError s
          else BuildResult.err KError.programGroupCreateError s
        else BuildResult.err KError.moduleCreateError s
      else BuildResult.err KError.kernelCompilationError s

/-- The release sequence of ~OptixKernel (optixaccelhw.cpp lines 362-391)
on a fully built kernel: pipeline, raygen/miss/hit program groups, module,
every entry of optixOutputBuffers in push order (bottom levels in mesh
order, then the top level), the instance buffer, the parameter block, and
the raygen, miss and hit SBT buffers. -/
def OptixKernel.destructorOrder (kern : KernelModel) : List Res :=
  [Res.pipeline, Res.raygenProgGroup, Res.missProgGroup, Res.hitProgGroup,
    Res.optixModule]
    ++ kern.optixOutputBuffers
    ++ [Res.instancesBuff, Res.accelParamsBuff, Res.rayGenSbtBuff,
        Res.missSbtBuff, Res.hitSbtBuff]

/-- Modelled from the spec: operations submitted to a device's native
queue/stream.  CUDADevice::EnqueueWriteBuffer is declared outside the
excerpt; per the concurrency model both the parameter-block write and the
launch are submitted, in order, to the same per-device queue, so dispatch
is embedded as the list of operations it appends to that queue.  The
allocation constructor exists so that "dispatch allocates no buffer" is a
statement about the same operation alphabet. -/
inductive DevOp where
  | enqueueWriteBuffer (target : Res) (blocking : Bool)
  | optixLaunch (paramsBuff : Res) (width : Nat) (height : Nat) (depth : Nat)
  | allocBuffer (r : Res)
  deriving DecidableEq, Repr

/-- OptixKernel::EnqueueTraceRayBuffer (optixaccelhw.cpp lines 529-544):
write the two buffer device addresses into the host copy of the parameter
block, enqueue a non-blocking write of the block into its pre-allocated
device buffer, then enqueue optixLaunch over the same parameter buffer
with grid (rayCount, 1, 1).  Returns the updated kernel and the queue
operations it submitted. -/
def OptixKernel.enqueueTraceRayBuffer (kern : KernelModel)
    (rayBuffPtr rayHitBuffPtr : Nat) (rayCount : Nat) :
    KernelModel × List DevOp :=
  let newParams :=
    { kern.optixAccelParams with rayBuff := rayBuffPtr, rayHitBuff := rayHitBuffPtr }
  ({ kern with optixAccelParams := newParams },
    [DevOp.enqueueWriteBuffer Res.accelParamsBuff false,
      DevOp.optixLaunch Res.accelParamsBuff rayCount 1 1])

/-- State of one CUDAIntersectionDevice: lifecycle flag, the owned kernel
(nullptr encoded as none, as initialized by the constructor), the
statsTotalDataParallelRayCount counter, the operations submitted to its
queue, and the device-buffer allocation state. -/
structure CudaDevState where
  started : Bool
  kernel : Option KernelModel
  statsTotalDataParallelRayCount : Nat
  queue : List DevOp
  buffers : KState
  deriving DecidableEq, Repr

/-- CUDAIntersectionDevice::Start (cudaintersectiondevice.cpp lines
85-90): CUDADevice::Start binds the native context (the started flag),
then the accelerator realizes the hardware kernel.  When construction
throws, the exception propagates out of Start: the kernel member keeps its
previous (null) value and the allocation state of the throw point is left
as is: nothing already allocated is released. -/
def CUDAIntersectionDevice.start (env : BuildEnv) (ds : DataSet)
    (d : CudaDevState) : CudaDevState × Option KError :=
  let d := { d with started := true }
  match constructKernel env ds.meshes d.buffers with
  | BuildResult.ok kern s =>
      ({ d with kernel := some kern, buffers := s }, none)
  | BuildResult.err e s =>
      ({ d with buffers := s }, some e)

/-- CUDAIntersectionDevice::Stop (lines 92-97): delete the kernel (running
~OptixKernel on a non-null kernel, a no-op on null), null the member, then
CUDADevice::Stop.  The destructor releases the resources of
OptixKernel.destructorOrder, in that order. -/
def CUDAIntersectionDevice.stop (d : CudaDevState) : CudaDevState :=
  match d.kernel with
  | some kern =>
      { d with
          kernel := none
          buffers := (OptixKernel.destructorOrder kern).foldl KState.free d.buffers
          started := false }
  | none => { d with kernel := none, started := false }

/-- Outcome of CUDAIntersectionDevice::EnqueueTraceRayBuffer: the code
dereferences the kernel member with no null check, so a device without a
kernel hits undefined behavior instead of reporting an error. -/
inductive DispatchOutcome where
  | enqueued
  | nullKernelDereference
  deriving DecidableEq, Repr

/-- CUDAIntersectionDevice::EnqueueTraceRayBuffer (lines 99-105): forward
to the kernel's dispatch (null kernel means a null-pointer dereference),
then add rayCount to statsTotalDataParallelRayCount. -/
def CUDAIntersectionDevice.enqueueTraceRayBuffer (d : CudaDevState)
    (rayBuffPtr rayHitBuffPtr : Nat) (rayCount : Nat) :
    CudaDevState × DispatchOutcome :=
  match d.kernel with
  | none => (d, DispatchOutcome.nullKernelDereference)
  | some kern =>
      let r := OptixKernel.enqueueTraceRayBuffer kern rayBuffPtr rayHitBuffPtr rayCount
      ({ d with
          kernel := some r.1
          queue := d.queue ++ r.2
          statsTotalDataParallelRayCount :=
            d.statsTotalDataParallelRayCount + rayCount },
        DispatchOutcome.enqueued)

/-- Outcome of a call whose guard is a C assert: with assertions enabled a
failed assert aborts; with NDEBUG the assert expands to nothing. -/
inductive UpdateOutcome where
  | assertionFailure
  | silentNoOp
  deriving DecidableEq, Repr

/-- OptixKernel::Update (optixaccelhw.cpp line 393): the body is
assert(false) and nothing else, for every DataSet argument.  With
assertions enabled every call fails the assertion; with assertions
disabled the call silently returns without doing anything.  No typed
error of the taxonomy is raised on any path. -/
def OptixKernel.update (assertionsEnabled : Bool) (newDataSet : DataSet) :
    UpdateOutcome :=
  if assertionsEnabled then UpdateOutcome.assertionFailure
  else UpdateOutcome.silentNoOp

/-- One intersection device as seen by the Context: its DataSet binding
(written by IntersectionDevice::SetDataSet, declared outside the excerpt,
which per the data model stores the reference) and its lifecycle flag. -/
structure IDevState where
  dataSet : Option DataSet
  started : Bool
  deriving DecidableEq, Repr

/-- Context state (context.cpp): the started flag, the current DataSet
reference and the owned intersection devices. -/
structure ContextState where
  started : Bool
  currentDataSet : Option DataSet
  idevices : List IDevState
  deriving DecidableEq, Repr

/-- Context::Start (context.cpp lines 139-146): start every owned device
in registration order, then set the started flag. -/
def Context.startAll (c : ContextState) : ContextState :=
  { c with
      started := true
      idevices := c.idevices.map (fun d => { d with started := true }) }

/-- Context::Stop (lines 155-164): interrupt, stop every owned device,
clear the started flag. -/
def Context.stopAll (c : ContextState) : ContextState :=
  { c with
      started := false
      idevices := c.idevices.map (fun d => { d with started := false }) }

/-- Outcome of Context::SetDataSet, whose only guard is assert(!started). -/
inductive SetDataSetOutcome where
  | ok
  | assertionFailure
  deriving DecidableEq, Repr

/-- Context::SetDataSet (context.cpp lines 114-121): assert(!started),
then store the reference and propagate the same reference to every owned
intersection device.  With assertions enabled a started context fails the
assertion before mutating anything; with assertions disabled (NDEBUG) the
guard vanishes and the assignment and propagation run unconditionally. -/
def Context.setDataSet (assertionsEnabled : Bool) (c : ContextState)
    (dataSet : Option DataSet) : ContextState × SetDataSetOutcome :=
  if assertionsEnabled && c.started then
    (c, SetDataSetOutcome.assertionFailure)
  else
    ({ c with
        currentDataSet := dataSet
        idevices := c.idevices.map (fun d => { d with dataSet := dataSet }) },
      SetDataSetOutcome.ok)

/-
Concrete inputs used by witness and counterexample theorems.
-/

/-- A one-triangle TYPE_TRIANGLE mesh. -/
def triMesh : Mesh :=
  { mtype := MeshType.typeTriangle, vertexCount := 3, triangleCount := 1 }

/-- A backend environment in which every native call succeeds and every
build reports a compacted size (50) strictly below the conservative output
size (100), so compaction always runs. -/
def envAllOk : BuildEnv :=
  { sizes := fun _ => { tempSizeInBytes := 64, outputSizeInBytes := 100, compactedSize := 50 }
    accelBuildOk := fun _ => true
    accelCompactOk := fun _ => true
    builtHandle := fun k => 100 + k
    compactedHandle := fun k => 200 + k
    compileOk := true
    moduleCreateOk := true
    raygenGroupOk := true
    missGroupOk := true
    hitGroupOk := true
    pipelineOk := true }

/-- The same environment with a failing PTX compilation, the injected
malformed-source scenario. -/
def envCompileFail : BuildEnv := { envAllOk with compileOk := false }

/-- An auto-typed one-mesh DataSet with no instance or motion-blur
requirements. -/
def dsTri : DataSet :=
  { acceleratorType := AccelType.accelAuto, requiresInstanceSupport := false,
    requiresMotionBlurSupport := false, meshes := [triMesh] }

/-- A second, distinct DataSet (motion blur required) used where a changed
reference must be observable. -/
def dsAuto2 : DataSet :=
  { acceleratorType := AccelType.accelAuto, requiresInstanceSupport := false,
    requiresMotionBlurSupport := true, meshes := [] }

/-- A DataSet with an explicitly configured ACCEL_OPTIX accelerator type
that also requires per-instance transforms. -/
def dsOverrideCex : DataSet :=
  { acceleratorType := AccelType.accelOptix, requiresInstanceSupport := true,
    requiresMotionBlurSupport := false, meshes := [triMesh] }

/-- An auto-typed DataSet requiring per-instance transforms. -/
def dsAutoInstW : DataSet :=
  { acceleratorType := AccelType.accelAuto, requiresInstanceSupport := true,
    requiresMotionBlurSupport := false, meshes := [triMesh] }

/-- A freshly constructed CUDAIntersectionDevice: not started, null kernel,
zero counter, empty queue, no allocations. -/
def devInit : CudaDevState :=
  { started := false, kernel := none, statsTotalDataParallelRayCount := 0,
    queue := [], buffers := ⟨[], []⟩ }

/-- Placeholder kernel value for the impossible branch of the result
extractors below. -/
def defaultKernel : KernelModel :=
  { bottomHandles := [], optixOutputBuffers := [], instances := [], topLevelHandle := 0,
    optixAccelParams := { optixHandle := 0, rayBuff := 0, rayHitBuff := 0 },
    optixSbt := { raygenRecords := [], missRecords := [], missRecordCount := 0,
                  hitRecords := [], hitgroupRecordCount := 0 } }

/-- The kernel produced by a successful construction over dsTri under
envAllOk. -/
def kernW : KernelModel :=
  match constructKernel envAllOk [triMesh] ⟨[], []⟩ with
  | BuildResult.ok k _ => k
  | BuildResult.err _ _ => defaultKernel

/-- The allocation state after that successful construction. -/
def stateW : KState :=
  match constructKernel envAllOk [triMesh] ⟨[], []⟩ with
  | BuildResult.ok _ s => s
  | BuildResult.err _ s => s

/-- The allocation state at the throw point of the failing construction
over dsTri under envCompileFail. -/
def stateFailW : KState :=
  match constructKernel envCompileFail dsTri.meshes devInit.buffers with
  | BuildResult.ok _ s => s
  | BuildResult.err _ s => s

/-- The device after a successful Start over dsTri under envAllOk. -/
def devStartedW : CudaDevState :=
  (CUDAIntersectionDevice.start envAllOk dsTri devInit).1

/-- A Context owning one idle intersection device bound to dsTri. -/
def ctxIdleW : ContextState :=
  { started := false, currentDataSet := some dsTri,
    idevices := [{ dataSet := some dsTri, started := false }] }

/-- The same Context after Context::Start. -/
def ctxStartedW : ContextState := Context.startAll ctxIdleW

/-- Default element used with List.getD over instance vectors. -/
def defaultInstance : OptixInstanceM := mkOptixInstance 0 0

/-- The instance vector the bottom-level loop produces for a handle list,
when started at mesh index i: one instance per handle, tagged with
consecutive mesh indices. -/
def bottomInstances (i : Nat) : List Nat → List OptixInstanceM
  | [] => []
  | h :: hs => mkOptixInstance i h :: bottomInstances (i + 1) hs

/-
Helper lemmas shared by the claim theorems.
-/

/-- The instance vector has one entry per bottom-level handle. -/
theorem bottomInstances_length (i : Nat) (hs : List Nat) :
    (bottomInstances i hs).length = hs.length := by
  induction hs generalizing i with
  | nil => rfl
  | cons h t ih => simp [bottomInstances, ih]

/-- Pointwise description of the instance vector: the j-th instance is the
one built for mesh index i + j from the j-th handle. -/
theorem bottomInstances_getD (hs : List Nat) (i j : Nat) (hj : j < hs.length) :
    (bottomInstances i hs).getD j defaultInstance =
      mkOptixInstance (i + j) (hs.getD j 0) := by
  induction hs generalizing i j with
  | nil => simp at hj
  | cons h t ih =>
    cases j with
    | zero => simp [bottomInstances]
    | succ j =>
      simp only [bottomInstances, List.getD_cons_succ]
      rw [ih (i + 1) j (by simpa using hj)]
      ring_nf

/-- A successful bottom-level loop returns one handle, one output buffer
and one instance per mesh, the instances being exactly those built from
the handles with consecutive mesh indices. -/
theorem buildBottomLevels_ok (env : BuildEnv) :
    ∀ (meshes : List Mesh) (i : Nat) (s : KState) (hs : List Nat)
      (outs : List Res) (insts : List OptixInstanceM) (s' : KState),
      buildBottomLevels env meshes i s = BuildResult.ok (hs, outs, insts) s' →
      hs.length = meshes.length ∧ outs.length = meshes.length ∧
      insts = bottomInstances i hs := by
  intro meshes
  induction meshes with
  | nil =>
    intro i s hs outs insts s' h
    simp only [buildBottomLevels] at h
    injection h with ha hb
    rw [Prod.ext_iff] at ha
    obtain ⟨h1, ha⟩ := ha
    rw [Prod.ext_iff] at ha
    obtain ⟨h2, h3⟩ := ha
    subst h1; subst h2; subst h3
    simp [bottomInstances]
  | cons m rest ih =>
    intro i s hs outs insts s' h
    simp only [buildBottomLevels] at h
    rcases m with ⟨mt, vc, tc⟩
    cases mt <;> simp only at h
    case typeOther => exact absurd h (by simp)
    all_goals {
      cases hbm : buildTraversableMesh env i s with
      | err e s1 => rw [hbm] at h; exact absurd h (by simp)
      | ok r s1 =>
        rw [hbm] at h
        rcases r with ⟨h0, out0⟩
        simp only at h
        cases hbr : buildBottomLevels env rest (i + 1) s1 with
        | err e s2 => rw [hbr] at h; exact absurd h (by simp)
        | ok t s2 =>
          rw [hbr] at h
          rcases t with ⟨hs1, outs1, insts1⟩
          simp only at h
          injection h with ha hb
          rw [Prod.ext_iff] at ha
          obtain ⟨h1, ha⟩ := ha
          rw [Prod.ext_iff] at ha
          obtain ⟨h2, h3⟩ := ha
          subst h1; subst h2; subst h3
          obtain ⟨l1, l2, l3⟩ := ih (i + 1) s1 hs1 outs1 insts1 s2 hbr
          subst l3
          simp [bottomInstances, l1, l2]
    }

/-- Decomposition of a successful constructor run: a successful bottom
loop, the instance-buffer allocation, a successful top-level build, and
the kernel record assembled from their products, with the SBT of
sbtFor. -/
theorem constructKernel_ok_shape (env : BuildEnv) (meshes : List Mesh)
    (s : KState) (kern : KernelModel) (s' : KState)
    (h : constructKernel env meshes s = BuildResult.ok kern s') :
    ∃ hs outs insts s1 topHandle topOut s2,
      buildBottomLevels env meshes 0 s = BuildResult.ok (hs, outs, insts) s1 ∧
      buildTraversableInput env meshes.length (s1.alloc Res.instancesBuff) =
        BuildResult.ok (topHandle, topOut) s2 ∧
      kern = { bottomHandles := hs
               optixOutputBuffers := outs ++ [topOut]
               instances := insts
               topLevelHandle := topHandle
               optixAccelParams := { optixHandle := topHandle, rayBuff := 0, rayHitBuff := 0 }
               optixSbt := sbtFor meshes.length } := by
  unfold constructKernel at h
  cases hbb : buildBottomLevels env meshes 0 s with
  | err e s1 => rw [hbb] at h; exact absurd h (by simp)
  | ok t s1 =>
    rw [hbb] at h
    rcases t with ⟨hs, outs, insts⟩
    simp only at h
    cases hbt : buildTraversableInput env meshes.length (s1.alloc Res.instancesBuff) with
    | err e s2 => rw [hbt] at h; exact absurd h (by simp)
    | ok r s2 =>
      rw [hbt] at h
      rcases r with ⟨topHandle, topOut⟩
      simp only at h
      repeat split at h
      all_goals cases h
      exact ⟨hs, outs, insts, s1, topHandle, topOut, s2, rfl, hbt, rfl⟩

/-- Folding KState.free over a resource list appends the list to the free
log and leaves the allocation log unchanged. -/
theorem foldl_free_spec (l : List Res) (s : KState) :
    ((l.foldl KState.free s).freeLog = s.freeLog ++ l) ∧
    ((l.foldl KState.free s).allocLog = s.allocLog) := by
  induction l generalizing s with
  | nil => simp
  | cons r t ih => simp [KState.free, ih]

/-
Claim theorems.
-/

/-- C1, counterexample: with PTX compilation failing over a one-mesh
DataSet, Start propagates KernelCompilationError and the kernel field
stays null — but the bottom-level output buffer, the instance buffer and
the top-level output buffer allocated before the throw are still live
(nothing is released, refuting "every resource already allocated for that
kernel is released"), and a subsequent EnqueueTraceRayBuffer dereferences
the null kernel instead of failing with InvalidState. -/
theorem spec_C1_counterexample :
    (CUDAIntersectionDevice.start envCompileFail dsTri devInit).2 =
      some KError.kernelCompilationError ∧
    (CUDAIntersectionDevice.start envCompileFail dsTri devInit).1.kernel = none ∧
    (CUDAIntersectionDevice.start envCompileFail dsTri devInit).1.buffers.live =
      [Res.compactedOutput 0, Res.instancesBuff, Res.compactedOutput 1] ∧
    (CUDAIntersectionDevice.start envCompileFail dsTri devInit).1.buffers.live ≠ [] ∧
    (CUDAIntersectionDevice.enqueueTraceRayBuffer
        (CUDAIntersectionDevice.start envCompileFail dsTri devInit).1 7 11 32).2 =
      DispatchOutcome.nullKernelDereference := by decide

/-- C1, amended: if any backend build or compaction step or the kernel
compilation fails during hardware-kernel construction, Start propagates
that error and the device's kernel field stays null, so no partially
built kernel is exposed; however the resources already allocated for the
kernel are left exactly as at the throw point (nothing is released), and
a subsequent EnqueueTraceRayBuffer dereferences the null kernel rather
than failing with InvalidState. -/
theorem spec_C1_amended (env : BuildEnv) (ds : DataSet) (d : CudaDevState)
    (e : KError) (s' : KState) (hk : d.kernel = none)
    (hfail : constructKernel env ds.meshes d.buffers = BuildResult.err e s') :
    (CUDAIntersectionDevice.start env ds d).2 = some e ∧
    (CUDAIntersectionDevice.start env ds d).1.kernel = none ∧
    (CUDAIntersectionDevice.start env ds d).1.buffers = s' ∧
    (CUDAIntersectionDevice.enqueueTraceRayBuffer
        (CUDAIntersectionDevice.start env ds d).1 7 11 32).2 =
      DispatchOutcome.nullKernelDereference := by
  simp [CUDAIntersectionDevice.start, CUDAIntersectionDevice.enqueueTraceRayBuffer,
    hfail, hk]

/-- C1, witness: the amended theorem applied to the concrete failing
compilation run. -/
theorem spec_C1_witness :
    (CUDAIntersectionDevice.start envCompileFail dsTri devInit).2 =
      some KError.kernelCompilationError ∧
    (CUDAIntersectionDevice.start envCompileFail dsTri devInit).1.kernel = none ∧
    (CUDAIntersectionDevice.start envCompileFail dsTri devInit).1.buffers = stateFailW ∧
    (CUDAIntersectionDevice.enqueueTraceRayBuffer
        (CUDAIntersectionDevice.start envCompileFail dsTri devInit).1 7 11 32).2 =
      DispatchOutcome.nullKernelDereference :=
  spec_C1_amended envCompileFail dsTri devInit KError.kernelCompilationError
    stateFailW rfl rfl

/-- C2, counterexample: a DataSet that requires per-instance transforms
but carries an explicitly configured ACCEL_OPTIX accelerator type is
given the hardware (Optix) strategy, not ACCEL_MBVH, even on a device
with an Optix context — the selection policy of the claim only governs
the ACCEL_AUTO case. -/
theorem spec_C2_counterexample :
    dsOverrideCex.requiresInstanceSupport = true ∧
    selectAccelerator true dsOverrideCex = AccelType.accelOptix ∧
    AccelType.accelOptix ≠ AccelType.accelMBVH := by decide

/-- C2, amended: when the DataSet's accelerator type is ACCEL_AUTO the
claimed policy holds (instance or motion-blur requirements select
ACCEL_MBVH and never the hardware strategy; otherwise an Optix context
selects ACCEL_OPTIX and its absence ACCEL_BVH); when the DataSet carries
any explicit accelerator type, that type is selected unconditionally. -/
theorem spec_C2_amended (hasOptixContext : Bool) (ds : DataSet) :
    (ds.acceleratorType ≠ AccelType.accelAuto →
      selectAccelerator hasOptixContext ds = ds.acceleratorType) ∧
    (ds.acceleratorType = AccelType.accelAuto →
      ((ds.requiresInstanceSupport || ds.requiresMotionBlurSupport) = true →
        selectAccelerator hasOptixContext ds = AccelType.accelMBVH) ∧
      ((ds.requiresInstanceSupport || ds.requiresMotionBlurSupport) = false →
        selectAccelerator hasOptixContext ds =
          if hasOptixContext then AccelType.accelOptix else AccelType.accelBVH)) := by
  constructor
  · intro hne
    simp [selectAccelerator, hne]
  · intro heq
    constructor
    · intro hflags
      simp [selectAccelerator, heq, hflags]
    · intro hflags
      simp [selectAccelerator, heq, hflags]

/-- C2, witness: the amended theorem applied to an ACCEL_AUTO DataSet
that requires per-instance transforms on an Optix-capable device. -/
theorem spec_C2_witness :
    selectAccelerator true dsAutoInstW = AccelType.accelMBVH :=
  ((spec_C2_amended true dsAutoInstW).2 rfl).1 rfl

/-- C3: after a successful construction over an n-mesh DataSet (n at
least 1), there are exactly n bottom-level structures, n + 1 output
buffers (the bottom levels plus the top level), exactly one raygen
record, exactly one miss record (with missRecordCount 1), and exactly n
hit-group records (with hitgroupRecordCount n). -/
theorem spec_C3 (env : BuildEnv) (meshes : List Mesh) (s s' : KState)
    (kern : KernelModel) (hne : meshes ≠ [])
    (h : constructKernel env meshes s = BuildResult.ok kern s') :
    kern.bottomHandles.length = meshes.length ∧
    kern.optixOutputBuffers.length = meshes.length + 1 ∧
    kern.optixSbt.raygenRecords.length = 1 ∧
    kern.optixSbt.missRecords.length = 1 ∧
    kern.optixSbt.missRecordCount = 1 ∧
    kern.optixSbt.hitRecords.length = meshes.length ∧
    kern.optixSbt.hitgroupRecordCount = meshes.length := by
  obtain ⟨hs, outs, insts, s1, topHandle, topOut, s2, hbb, hbt, hk⟩ :=
    constructKernel_ok_shape env meshes s kern s' h
  obtain ⟨l1, l2, l3⟩ := buildBottomLevels_ok env meshes 0 s hs outs insts s1 hbb
  subst hk
  simp [sbtFor, l1, l2]

/-- C3, witness: the counts at the concrete successful one-mesh run. -/
theorem spec_C3_witness :
    kernW.bottomHandles.length = 1 ∧
    kernW.optixOutputBuffers.length = 2 ∧
    kernW.optixSbt.raygenRecords.length = 1 ∧
    kernW.optixSbt.missRecords.length = 1 ∧
    kernW.optixSbt.missRecordCount = 1 ∧
    kernW.optixSbt.hitRecords.length = 1 ∧
    kernW.optixSbt.hitgroupRecordCount = 1 := by
  simpa using spec_C3 envAllOk [triMesh] ⟨[], []⟩ stateW kernW (by simp) rfl

/-- C4: while the device is started with a kernel, EnqueueTraceRayBuffer
reports success, appends to the device queue exactly the non-blocking
parameter-block write followed by the launch with grid (rayCount, 1, 1),
adds exactly rayCount to statsTotalDataParallelRayCount, and rewrites the
parameter block's ray and hit addresses while keeping its top-level
handle. -/
theorem spec_C4 (d : CudaDevState) (kern : KernelModel)
    (rayBuffPtr rayHitBuffPtr rayCount : Nat)
    (hstarted : d.started = true) (hkern : d.kernel = some kern) :
    (CUDAIntersectionDevice.enqueueTraceRayBuffer d rayBuffPtr rayHitBuffPtr rayCount).2 =
      DispatchOutcome.enqueued ∧
    (CUDAIntersectionDevice.enqueueTraceRayBuffer d rayBuffPtr rayHitBuffPtr rayCount).1.queue =
      d.queue ++
        [DevOp.enqueueWriteBuffer Res.accelParamsBuff false,
          DevOp.optixLaunch Res.accelParamsBuff rayCount 1 1] ∧
    (CUDAIntersectionDevice.enqueueTraceRayBuffer d rayBuffPtr rayHitBuffPtr
          rayCount).1.statsTotalDataParallelRayCount =
      d.statsTotalDataParallelRayCount + rayCount ∧
    (CUDAIntersectionDevice.enqueueTraceRayBuffer d rayBuffPtr rayHitBuffPtr rayCount).1.kernel =
      some { kern with optixAccelParams :=
          { optixHandle := kern.optixAccelParams.optixHandle,
            rayBuff := rayBuffPtr, rayHitBuff := rayHitBuffPtr } } := by
  simp [CUDAIntersectionDevice.enqueueTraceRayBuffer, OptixKernel.enqueueTraceRayBuffer,
    hkern]

/-- C4, witness: the theorem applied to the concrete started device. -/
theorem spec_C4_witness :
    (CUDAIntersectionDevice.enqueueTraceRayBuffer devStartedW 7 11 32).2 =
      DispatchOutcome.enqueued ∧
    (CUDAIntersectionDevice.enqueueTraceRayBuffer devStartedW 7 11 32).1.queue =
      devStartedW.queue ++
        [DevOp.enqueueWriteBuffer Res.accelParamsBuff false,
          DevOp.optixLaunch Res.accelParamsBuff 32 1 1] ∧
    (CUDAIntersectionDevice.enqueueTraceRayBuffer devStartedW 7 11
          32).1.statsTotalDataParallelRayCount =
      devStartedW.statsTotalDataParallelRayCount + 32 ∧
    (CUDAIntersectionDevice.enqueueTraceRayBuffer devStartedW 7 11 32).1.kernel =
      some { kernW with optixAccelParams :=
          { optixHandle := kernW.optixAccelParams.optixHandle,
            rayBuff := 7, rayHitBuff := 11 } } :=
  spec_C4 devStartedW kernW 7 11 32 rfl rfl

/-- C5: for every structure build whose optixAccelBuild and
optixAccelCompact succeed, the compacted size is compared with the
conservative output size; exactly when it is strictly smaller, a tight
buffer is allocated, the structure is compacted into it (becoming the
final output) and the conservative buffer is freed, and otherwise the
conservative buffer itself is the final output and no tight buffer
exists; in both cases the temporary scratch buffer has been freed before
the function returns. -/
theorem spec_C5 (env : BuildEnv) (k : Nat) (s : KState)
    (hb : env.accelBuildOk k = true) (hc : env.accelCompactOk k = true) :
    ((env.sizes k).compactedSize < (env.sizes k).outputSizeInBytes →
      buildTraversableInput env k s =
        BuildResult.ok (env.compactedHandle k, Res.compactedOutput k)
          { allocLog := s.allocLog ++
              [Res.tmpBufferGas k, Res.tempOutput k, Res.compactedOutput k]
            freeLog := s.freeLog ++ [Res.tmpBufferGas k, Res.tempOutput k] }) ∧
    (¬ (env.sizes k).compactedSize < (env.sizes k).outputSizeInBytes →
      buildTraversableInput env k s =
        BuildResult.ok (env.builtHandle k, Res.tempOutput k)
          { allocLog := s.allocLog ++ [Res.tmpBufferGas k, Res.tempOutput k]
            freeLog := s.freeLog ++ [Res.tmpBufferGas k] }) := by
  constructor
  · intro hlt
    simp [buildTraversableInput, KState.alloc, KState.free, hb, hc, hlt]
  · intro hge
    simp [buildTraversableInput, KState.alloc, KState.free, hb, hc, hge]

/-- C5, witness: the compacting branch at the concrete environment, where
the compacted size 50 is below the conservative size 100. -/
theorem spec_C5_witness :
    buildTraversableInput envAllOk 0 ⟨[], []⟩ =
      BuildResult.ok (envAllOk.compactedHandle 0, Res.compactedOutput 0)
        { allocLog := [Res.tmpBufferGas 0, Res.tempOutput 0, Res.compactedOutput 0]
          freeLog := [Res.tmpBufferGas 0, Res.tempOutput 0] } := by
  simpa using (spec_C5 envAllOk 0 ⟨[], []⟩ rfl rfl).1 (by decide)

/-- C6: after a successful construction, for every mesh index j below the
mesh count, the j-th instance references the j-th bottom-level handle,
has instanceId j, carries the identity transform, and there is one
instance per mesh. -/
theorem spec_C6 (env : BuildEnv) (meshes : List Mesh) (s s' : KState)
    (kern : KernelModel) (j : Nat)
    (h : constructKernel env meshes s = BuildResult.ok kern s')
    (hj : j < meshes.length) :
    kern.instances.length = meshes.length ∧
    (kern.instances.getD j defaultInstance).traversableHandle =
      kern.bottomHandles.getD j 0 ∧
    (kern.instances.getD j defaultInstance).instanceId = j ∧
    (kern.instances.getD j defaultInstance).transform =
      [1, 0, 0, 0, 0, 1, 0, 0, 0, 0, 1, 0] ∧
    (kern.instances.getD j defaultInstance).disableTransform = true := by
  obtain ⟨hs, outs, insts, s1, topHandle, topOut, s2, hbb, hbt, hk⟩ :=
    constructKernel_ok_shape env meshes s kern s' h
  obtain ⟨l1, l2, l3⟩ := buildBottomLevels_ok env meshes 0 s hs outs insts s1 hbb
  subst hk
  subst l3
  have hj2 : j < hs.length := by rw [l1]; exact hj
  have hget := bottomInstances_getD hs 0 j hj2
  constructor
  · simp [bottomInstances_length, l1]
  · simp only [hget]
    simp [mkOptixInstance, identityTransform, clearedTransform]

/-- C6, witness: the theorem applied to the concrete successful one-mesh
run at instance index 0. -/
theorem spec_C6_witness :
    kernW.instances.length = 1 ∧
    (kernW.instances.getD 0 defaultInstance).traversableHandle =
      kernW.bottomHandles.getD 0 0 ∧
    (kernW.instances.getD 0 defaultInstance).instanceId = 0 ∧
    (kernW.instances.getD 0 defaultInstance).transform =
      [1, 0, 0, 0, 0, 1, 0, 0, 0, 0, 1, 0] ∧
    (kernW.instances.getD 0 defaultInstance).disableTransform = true := by
  simpa using spec_C6 envAllOk [triMesh] ⟨[], []⟩ stateW kernW 0 rfl (by decide)

/-- C7, counterexample: at the concrete successful one-mesh run, the
surviving allocations in creation order are the bottom-level output, the
instance buffer, the top-level output, the module, the three program
groups, the pipeline, the parameter block and the raygen/hit/miss SBT
buffers — and the destructor sequence of ~OptixKernel is not the reversal
of that creation sequence (it starts with the pipeline instead of the
miss SBT buffer, destroys the program groups and SBT buffers in creation
order, and frees the output buffers in build order). -/
theorem spec_C7_counterexample :
    constructKernel envAllOk [triMesh] ⟨[], []⟩ = BuildResult.ok kernW stateW ∧
    stateW.live =
      [Res.compactedOutput 0, Res.instancesBuff, Res.compactedOutput 1,
        Res.optixModule, Res.raygenProgGroup, Res.missProgGroup, Res.hitProgGroup,
        Res.pipeline, Res.accelParamsBuff, Res.rayGenSbtBuff, Res.hitSbtBuff,
        Res.missSbtBuff] ∧
    OptixKernel.destructorOrder kernW =
      [Res.pipeline, Res.raygenProgGroup, Res.missProgGroup, Res.hitProgGroup,
        Res.optixModule, Res.compactedOutput 0, Res.compactedOutput 1,
        Res.instancesBuff, Res.accelParamsBuff, Res.rayGenSbtBuff,
        Res.missSbtBuff, Res.hitSbtBuff] ∧
    OptixKernel.destructorOrder kernW ≠ stateW.live.reverse := by decide

/-- C7, amended: on Stop of a device holding a successfully built kernel,
the kernel's resources are destroyed in the fixed sequence pipeline,
raygen/miss/hit program groups, module, output buffers in build order
(bottom levels then top level), instance buffer, parameter block, raygen,
miss and hit SBT records — a fixed order that is not the reversal of the
creation order — after which the kernel object itself is released (the
field becomes null, the flag cleared) and a second Stop changes
nothing. -/
theorem spec_C7_amended (env : BuildEnv) (meshes : List Mesh) (s s' : KState)
    (kern : KernelModel) (d : CudaDevState)
    (h : constructKernel env meshes s = BuildResult.ok kern s')
    (hk : d.kernel = some kern) :
    OptixKernel.destructorOrder kern =
      [Res.pipeline, Res.raygenProgGroup, Res.missProgGroup, Res.hitProgGroup,
        Res.optixModule] ++ kern.optixOutputBuffers ++
      [Res.instancesBuff, Res.accelParamsBuff, Res.rayGenSbtBuff,
        Res.missSbtBuff, Res.hitSbtBuff] ∧
    kern.optixOutputBuffers.length = meshes.length + 1 ∧
    (CUDAIntersectionDevice.stop d).kernel = none ∧
    (CUDAIntersectionDevice.stop d).started = false ∧
    (CUDAIntersectionDevice.stop d).buffers.freeLog =
      d.buffers.freeLog ++ OptixKernel.destructorOrder kern ∧
    CUDAIntersectionDevice.stop (CUDAIntersectionDevice.stop d) =
      CUDAIntersectionDevice.stop d := by
  obtain ⟨hs, outs, insts, s1, topHandle, topOut, s2, hbb, hbt, hkern⟩ :=
    constructKernel_ok_shape env meshes s kern s' h
  obtain ⟨l1, l2, l3⟩ := buildBottomLevels_ok env meshes 0 s hs outs insts s1 hbb
  refine ⟨rfl, ?_, ?_, ?_, ?_, ?_⟩
  · subst hkern; simp [l2]
  · simp [CUDAIntersectionDevice.stop, hk]
  · simp [CUDAIntersectionDevice.stop, hk]
  · simp [CUDAIntersectionDevice.stop, hk,
      (foldl_free_spec (OptixKernel.destructorOrder kern) d.buffers).1]
  · simp [CUDAIntersectionDevice.stop, hk]

/-- C7, witness: the amended theorem applied to the concrete started
device holding the one-mesh kernel. -/
theorem spec_C7_witness :
    OptixKernel.destructorOrder kernW =
      [Res.pipeline, Res.raygenProgGroup, Res.missProgGroup, Res.hitProgGroup,
        Res.optixModule] ++ kernW.optixOutputBuffers ++
      [Res.instancesBuff, Res.accelParamsBuff, Res.rayGenSbtBuff,
        Res.missSbtBuff, Res.hitSbtBuff] ∧
    kernW.optixOutputBuffers.length = 2 ∧
    (CUDAIntersectionDevice.stop devStartedW).kernel = none ∧
    (CUDAIntersectionDevice.stop devStartedW).started = false ∧
    (CUDAIntersectionDevice.stop devStartedW).buffers.freeLog =
      devStartedW.buffers.freeLog ++ OptixKernel.destructorOrder kernW ∧
    CUDAIntersectionDevice.stop (CUDAIntersectionDevice.stop devStartedW) =
      CUDAIntersectionDevice.stop devStartedW := by
  simpa using
    spec_C7_amended envAllOk [triMesh] ⟨[], []⟩ stateW kernW devStartedW rfl rfl

/-- C8, counterexample: on a started context owning a started device,
with assertions disabled (the NDEBUG build), SetDataSet succeeds and
changes the stored reference instead of failing and leaving it
unchanged. -/
theorem spec_C8_counterexample :
    ctxStartedW.idevices.any (fun d => d.started) = true ∧
    (Context.setDataSet false ctxStartedW (some dsAuto2)).2 = SetDataSetOutcome.ok ∧
    (Context.setDataSet false ctxStartedW (some dsAuto2)).1.currentDataSet =
      some dsAuto2 ∧
    ctxStartedW.currentDataSet = some dsTri ∧
    some dsAuto2 ≠ ctxStartedW.currentDataSet := by decide

/-- C8, amended: Context::SetDataSet guards the started state only with
assert(!started): with assertions enabled, calling it on a started
context fails the assertion before any mutation (the DataSet reference is
unchanged); with assertions disabled the guard vanishes and the call
proceeds even while started. On a non-started context it stores the
reference and propagates the same reference to every owned intersection
device. No typed InvalidState error exists on any path. -/
theorem spec_C8_amended (assertionsEnabled : Bool) (c : ContextState)
    (ds : Option DataSet) :
    (assertionsEnabled = true → c.started = true →
      Context.setDataSet assertionsEnabled c ds = (c, SetDataSetOutcome.assertionFailure)) ∧
    (c.started = false →
      (Context.setDataSet assertionsEnabled c ds).2 = SetDataSetOutcome.ok ∧
      (Context.setDataSet assertionsEnabled c ds).1.currentDataSet = ds ∧
      ∀ dev ∈ (Context.setDataSet assertionsEnabled c ds).1.idevices,
        dev.dataSet = ds) := by
  constructor
  · intro ha hs
    simp [Context.setDataSet, ha, hs]
  · intro hs
    refine ⟨?_, ?_, ?_⟩
    · simp [Context.setDataSet, hs]
    · simp [Context.setDataSet, hs]
    · intro dev hmem
      simp [Context.setDataSet, hs] at hmem
      obtain ⟨d0, hd0, hdev⟩ := hmem
      simp [← hdev]

/-- C8, witness: the amended theorem applied to the concrete started
context (assertion failure, state returned unchanged) and to the concrete
idle context (reference stored). -/
theorem spec_C8_witness :
    Context.setDataSet true ctxStartedW (some dsAuto2) =
      (ctxStartedW, SetDataSetOutcome.assertionFailure) ∧
    (Context.setDataSet false ctxIdleW (some dsAuto2)).2 = SetDataSetOutcome.ok ∧
    (Context.setDataSet false ctxIdleW (some dsAuto2)).1.currentDataSet =
      some dsAuto2 :=
  ⟨(spec_C8_amended true ctxStartedW (some dsAuto2)).1 rfl rfl,
    ((spec_C8_amended false ctxIdleW (some dsAuto2)).2 rfl).1,
    ((spec_C8_amended false ctxIdleW (some dsAuto2)).2 rfl).2.1⟩

/-- C9, counterexample: with assertions disabled (the NDEBUG build),
OptixKernel::Update silently does nothing — the opposite of rejecting
the call with an observable error — and even with assertions enabled the
outcome is an assertion failure (a crash), not an explicit typed
implementation-restriction signal. -/
theorem spec_C9_counterexample :
    OptixKernel.update false dsTri = UpdateOutcome.silentNoOp ∧
    OptixKernel.update true dsTri = UpdateOutcome.assertionFailure := by decide

/-- C9, amended: OptixKernel::Update is an assert(false) stub: for every
DataSet argument, with assertions enabled the call fails the assertion
(aborts), and with assertions disabled it silently does nothing; no typed
implementation-restriction error is raised in either configuration. -/
theorem spec_C9_amended (assertionsEnabled : Bool) (ds : DataSet) :
    OptixKernel.update assertionsEnabled ds =
      (if assertionsEnabled then UpdateOutcome.assertionFailure
        else UpdateOutcome.silentNoOp) := rfl

/-- C9, witness: both configurations evaluated at a concrete DataSet. -/
theorem spec_C9_witness :
    OptixKernel.update true dsAuto2 = UpdateOutcome.assertionFailure ∧
    OptixKernel.update false dsAuto2 = UpdateOutcome.silentNoOp := by
  exact ⟨by simpa using spec_C9_amended true dsAuto2,
    by simpa using spec_C9_amended false dsAuto2⟩

/-- C10: every dispatch rewrites only the ray-buffer and hit-buffer
address fields of the parameter block — the top-level handle stored at
construction and every other kernel field are unchanged — and the
submitted operations are exactly the write into the pre-allocated
parameter buffer and the launch: no buffer allocation is ever
submitted. -/
theorem spec_C10 (kern : KernelModel) (rayBuffPtr rayHitBuffPtr rayCount : Nat) :
    (OptixKernel.enqueueTraceRayBuffer kern rayBuffPtr rayHitBuffPtr
        rayCount).1.optixAccelParams.optixHandle = kern.optixAccelParams.optixHandle ∧
    (OptixKernel.enqueueTraceRayBuffer kern rayBuffPtr rayHitBuffPtr
        rayCount).1.optixAccelParams.rayBuff = rayBuffPtr ∧
    (OptixKernel.enqueueTraceRayBuffer kern rayBuffPtr rayHitBuffPtr
        rayCount).1.optixAccelParams.rayHitBuff = rayHitBuffPtr ∧
    (OptixKernel.enqueueTraceRayBuffer kern rayBuffPtr rayHitBuffPtr
        rayCount).1.bottomHandles = kern.bottomHandles ∧
    (OptixKernel.enqueueTraceRayBuffer kern rayBuffPtr rayHitBuffPtr
        rayCount).1.optixOutputBuffers = kern.optixOutputBuffers ∧
    (OptixKernel.enqueueTraceRayBuffer kern rayBuffPtr rayHitBuffPtr
        rayCount).1.instances = kern.instances ∧
    (OptixKernel.enqueueTraceRayBuffer kern rayBuffPtr rayHitBuffPtr
        rayCount).1.topLevelHandle = kern.topLevelHandle ∧
    (OptixKernel.enqueueTraceRayBuffer kern rayBuffPtr rayHitBuffPtr
        rayCount).1.optixSbt = kern.optixSbt ∧
    (OptixKernel.enqueueTraceRayBuffer kern rayBuffPtr rayHitBuffPtr rayCount).2 =
      [DevOp.enqueueWriteBuffer Res.accelParamsBuff false,
        DevOp.optixLaunch Res.accelParamsBuff rayCount 1 1] ∧
    ∀ r, DevOp.allocBuffer r ∉
      (OptixKernel.enqueueTraceRayBuffer kern rayBuffPtr rayHitBuffPtr rayCount).2 := by
  simp [OptixKernel.enqueueTraceRayBuffer]

/-- C10, witness: the parameter-block facts at the concrete kernel. -/
theorem spec_C10_witness :
    (OptixKernel.enqueueTraceRayBuffer kernW 7 11 32).1.optixAccelParams.optixHandle =
      kernW.optixAccelParams.optixHandle ∧
    (OptixKernel.enqueueTraceRayBuffer kernW 7 11 32).1.optixAccelParams.rayBuff = 7 ∧
    (OptixKernel.enqueueTraceRayBuffer kernW 7 11 32).1.optixAccelParams.rayHitBuff = 11 := by
  have h := spec_C10 kernW 7 11 32
  exact ⟨h.1, h.2.1, h.2.2.1⟩

end LuxRays
